import Mathlib

/-!
Shallow embedding of `src/index.js`: a per-call session that bridges a
Twilio media-stream WebSocket to the OpenAI realtime WebSocket.

The session's mutable state (`streamSid`, the OpenAI socket's readyState,
the telephony socket's open flag) and the five event handlers
(`openAiWs.on('open')`, the 250 ms `setTimeout(sendSessionUpdate)`,
`openAiWs.on('message')`, `connection.on('message')`,
`connection.on('close')`, `openAiWs.on('close'/'error')`) are modelled by
one step function over an explicit state record.  A send on a WebSocket is
recorded in the corresponding sent-log exactly when that socket's
readyState is OPEN (a `send` on a CLOSING/CLOSED ws socket is swallowed by
the transport and delivers nothing on the wire); console logging is not
modelled.
-/

/-- Constant `SYSTEM_MESSAGE` of `src/index.js`. -/
def SYSTEM_MESSAGE : String :=
  "Eres un asistente muy obediente, te gusta enseñarme sobre finanzas y economía. Hablás español con el acento paraguayo"

/-- Constant `VOICE` of `src/index.js`. -/
def VOICE : String := "alloy"

/-- Constant `LOG_EVENT_TYPES` of `src/index.js` (used only for console logging). -/
def LOG_EVENT_TYPES : List String :=
  ["response.content.done", "rate_limits.updated", "response.done",
   "input_audio_buffer.committed", "input_audio_buffer.speech_stopped",
   "input_audio_buffer.speech_started", "session.created"]

/-! ### Base64, as performed by `Buffer.from(delta, 'base64').toString('base64')`

Node's base64 decoder (`unbase64` / `base64_decode_group_slow`) accepts
both the standard and the URL-safe alphabet (RFC 4648 §5: `-` is 62, `_`
is 63), skips any other character outside the alphabet, and stops decoding
entirely at the first `=`.  The sextets gathered up to that point decode in
groups of four to three bytes; a trailing group of three sextets gives two
bytes, of two gives one byte, and a lone trailing sextet is dropped.
`toString('base64')` re-encodes canonically (standard alphabet, `=`
padding). -/

/-- The 6-bit value of a character under Node's `unbase64` table: the
standard alphabet plus the URL-safe `-` (62) and `_` (63); `none` for any
other character, which the decoder skips. -/
def sextetOf (c : Char) : Option Nat :=
  let n := c.toNat
  if 65 ≤ n ∧ n ≤ 90 then some (n - 65)
  else if 97 ≤ n ∧ n ≤ 122 then some (n - 97 + 26)
  else if 48 ≤ n ∧ n ≤ 57 then some (n - 48 + 52)
  else if n = 43 ∨ n = 45 then some 62
  else if n = 47 ∨ n = 95 then some 63
  else none

/-- Decode a list of 6-bit values to bytes, as Node's base64 decoder does:
groups of four sextets give three bytes; a trailing group of three gives
two bytes, of two gives one byte, and a lone sextet gives nothing. -/
def sextetsToBytes : List Nat → List Nat
  | a :: b :: c :: d :: rest =>
      (a * 4 + b / 16) :: ((b % 16) * 16 + c / 4) :: ((c % 4) * 64 + d) :: sextetsToBytes rest
  | [a, b, c] => [a * 4 + b / 16, (b % 16) * 16 + c / 4]
  | [a, b] => [a * 4 + b / 16]
  | _ => []

/-- The base64 alphabet character for a 6-bit value. -/
def b64CharOf (n : Nat) : Char :=
  if n < 26 then Char.ofNat (65 + n)
  else if n < 52 then Char.ofNat (97 + (n - 26))
  else if n < 62 then Char.ofNat (48 + (n - 52))
  else if n = 62 then '+'
  else '/'

/-- Canonical base64 encoding of a byte list, with `=` padding, as
`Buffer.prototype.toString('base64')` produces. -/
def bytesToB64 : List Nat → List Char
  | x :: y :: z :: rest =>
      b64CharOf (x / 4) :: b64CharOf ((x % 4) * 16 + y / 16) ::
      b64CharOf ((y % 16) * 4 + z / 64) :: b64CharOf (z % 64) :: bytesToB64 rest
  | [x, y] => [b64CharOf (x / 4), b64CharOf ((x % 4) * 16 + y / 16), b64CharOf ((y % 16) * 4), '=']
  | [x] => [b64CharOf (x / 4), b64CharOf ((x % 4) * 16), '=', '=']
  | [] => []

/-- `Buffer.from(s, 'base64').toString('base64')` of `src/index.js` line 116:
decode up to the first `=` (Node's decoder stops there), skipping
non-alphabet characters, then re-encode canonically. -/
def b64Roundtrip (s : String) : String :=
  String.mk (bytesToB64 (sextetsToBytes ((s.data.takeWhile (· ≠ '=')).filterMap sextetOf)))

/-! ### Wire messages -/

/-- An inbound Twilio message after `JSON.parse` and the `data.event` switch
of `src/index.js` lines 126-148: `media` carries `data.media.payload`,
`start` carries `data.start.streamSid`, any other event tag is `other`, and
a message on which `JSON.parse` throws is `malformed`. -/
inductive TwilioMsg where
  | media (payload : String)
  | start (sid : String)
  | other (event : String)
  | malformed
deriving DecidableEq, Repr

/-- An inbound OpenAI message after `JSON.parse` of `src/index.js` lines
100-123: a JSON object with a `type` field and an optional string `delta`
field, or a message on which `JSON.parse` throws. -/
inductive OpenAiMsg where
  | event (ty : String) (delta : Option String)
  | malformed
deriving DecidableEq, Repr

/-- The `session` object built by `sendSessionUpdate` (lines 76-87). -/
structure SessionCfg where
  turn_detection : String
  input_audio_format : String
  output_audio_format : String
  voice : String
  instructions : String
  modalities : List String
  temperature : ℚ
deriving DecidableEq, Repr

/-- The `session.update` payload sent by `sendSessionUpdate`. -/
def sessionUpdateCfg : SessionCfg :=
  { turn_detection := "server_vad"
    input_audio_format := "g711_ulaw"
    output_audio_format := "g711_ulaw"
    voice := VOICE
    instructions := SYSTEM_MESSAGE
    modalities := ["text", "audio"]
    temperature := 0.8 }

/-- A message sent on the OpenAI WebSocket: the one-time `session.update`
(line 90) or an `input_audio_buffer.append` (lines 133-138). -/
inductive AiOut where
  | sessionUpdate (cfg : SessionCfg)
  | audioAppend (audio : String)
deriving DecidableEq, Repr

/-- A message sent on the Twilio connection: the `audioDelta` media frame of
lines 113-118, whose `streamSid` field is the session's current `streamSid`
(possibly still `null`). -/
inductive TwilioOut where
  | mediaFrame (streamSid : Option String) (payload : String)
deriving DecidableEq, Repr

/-! ### Session state and event handlers -/

/-- `readyState` of the `ws` WebSocket `openAiWs`. -/
inductive ReadyState where
  | CONNECTING
  | OPEN
  | CLOSING
  | CLOSED
deriving DecidableEq, Repr

/-- The per-call session state of `src/index.js` lines 63-168: the
`streamSid` variable (line 73, `null` until a `start` event), the OpenAI
socket's readyState, whether the `setTimeout(sendSessionUpdate, 250)` timer
(line 96) is pending, whether the Twilio connection is open, how many times
`openAiWs.close()` (line 156) has been called, and the messages delivered
on each socket, oldest first. -/
structure SessionState where
  streamSid : Option String
  aiState : ReadyState
  timerPending : Bool
  teleOpen : Bool
  aiCloseCalls : Nat
  aiSent : List AiOut
  teleSent : List TwilioOut
deriving DecidableEq, Repr

/-- The state right after the `/media-stream` handler (line 63) runs:
`streamSid = null`, `openAiWs` still connecting, Twilio connection open,
nothing sent. -/
def initState : SessionState :=
  { streamSid := none
    aiState := ReadyState.CONNECTING
    timerPending := false
    teleOpen := true
    aiCloseCalls := 0
    aiSent := []
    teleSent := [] }

/-- An asynchronous event delivered to the session's handlers. -/
inductive Event where
  | aiOpen
  | settleTimer
  | aiMessage (msg : OpenAiMsg)
  | twilioMessage (msg : TwilioMsg)
  | twilioClose
  | aiClose
  | aiError
deriving DecidableEq, Repr

/-- `openAiWs.send(x)`: the message reaches the wire only when the socket is
OPEN (`ws` swallows sends on a CLOSING/CLOSED socket). -/
def aiSend (s : SessionState) (m : AiOut) : SessionState :=
  if s.aiState = ReadyState.OPEN then { s with aiSent := s.aiSent ++ [m] } else s

/-- `connection.send(x)`: the message reaches the wire only while the Twilio
connection is open. -/
def teleSend (s : SessionState) (m : TwilioOut) : SessionState :=
  if s.teleOpen then { s with teleSent := s.teleSent ++ [m] } else s

/-- One event handler dispatch of `src/index.js` lines 94-167.
* `aiOpen` (line 94): the socket becomes OPEN and the handler schedules
  `sendSessionUpdate` after 250 ms.
* `settleTimer` (line 96): the pending timer fires and `sendSessionUpdate`
  executes, sending the `session.update` message.
* `aiMessage` (lines 100-123): a `response.audio.delta` with a truthy
  `delta` is wrapped into a media frame carrying the current `streamSid`
  and the base64 round-trip of the delta and sent to Twilio; every other
  type is only logged; a parse failure is caught and discarded.
* `twilioMessage` (lines 126-152): a `media` payload is forwarded as an
  `input_audio_buffer.append` only when `openAiWs.readyState === OPEN`;
  a `start` assigns `streamSid`; other tags are logged; a parse failure is
  caught and discarded.
* `twilioClose` (lines 155-158): the Twilio connection is now closed and
  the handler calls `openAiWs.close()` iff readyState is OPEN.
* `aiClose` / `aiError` (lines 161-167): the handlers only log; on close
  the socket's readyState becomes CLOSED. -/
def step (s : SessionState) : Event → SessionState
  | Event.aiOpen =>
      { s with aiState := ReadyState.OPEN, timerPending := true }
  | Event.settleTimer =>
      if s.timerPending then
        aiSend { s with timerPending := false } (AiOut.sessionUpdate sessionUpdateCfg)
      else s
  | Event.aiMessage OpenAiMsg.malformed => s
  | Event.aiMessage (OpenAiMsg.event ty delta) =>
      match delta with
      | some d =>
          if ty = "response.audio.delta" ∧ d ≠ "" then
            teleSend s (TwilioOut.mediaFrame s.streamSid (b64Roundtrip d))
          else s
      | none => s
  | Event.twilioMessage TwilioMsg.malformed => s
  | Event.twilioMessage (TwilioMsg.media payload) =>
      if s.aiState = ReadyState.OPEN then aiSend s (AiOut.audioAppend payload) else s
  | Event.twilioMessage (TwilioMsg.start sid) =>
      { s with streamSid := some sid }
  | Event.twilioMessage (TwilioMsg.other _) => s
  | Event.twilioClose =>
      let s := { s with teleOpen := false }
      if s.aiState = ReadyState.OPEN then
        { s with aiState := ReadyState.CLOSING, aiCloseCalls := s.aiCloseCalls + 1 }
      else s
  | Event.aiClose => { s with aiState := ReadyState.CLOSED }
  | Event.aiError => s

/-- Run a list of events from a given state. -/
def runFrom (s : SessionState) (evs : List Event) : SessionState :=
  evs.foldl step s

/-- Run a list of events from the initial session state. -/
def runTrace (evs : List Event) : SessionState :=
  runFrom initState evs

/-- `streamSid` as a function of the trace alone: the sid of the most recent
`start` event, `null` before the first one. -/
def lastSidFold (acc : Option String) (e : Event) : Option String :=
  match e with
  | Event.twilioMessage (TwilioMsg.start sid) => some sid
  | _ => acc

/-- The sid carried by the last `start` event of a trace, if any. -/
def lastStartSid (evs : List Event) : Option String :=
  evs.foldl lastSidFold none

/-! ### Helper lemmas -/

lemma runFrom_cons (s : SessionState) (e : Event) (evs : List Event) :
    runFrom s (e :: evs) = runFrom (step s e) evs := rfl

lemma runFrom_append (s : SessionState) (evs₁ evs₂ : List Event) :
    runFrom s (evs₁ ++ evs₂) = runFrom (runFrom s evs₁) evs₂ := by
  simp [runFrom, List.foldl_append]

lemma step_media_open (s : SessionState) (p : String) (h : s.aiState = ReadyState.OPEN) :
    step s (Event.twilioMessage (TwilioMsg.media p))
      = { s with aiSent := s.aiSent ++ [AiOut.audioAppend p] } := by
  simp [step, aiSend, h]

lemma runFrom_media_batch (ps : List String) : ∀ s : SessionState,
    s.aiState = ReadyState.OPEN →
    (runFrom s (ps.map fun q => Event.twilioMessage (TwilioMsg.media q))).aiSent
      = s.aiSent ++ ps.map AiOut.audioAppend := by
  induction ps with
  | nil => intro s _; simp [runFrom]
  | cons p ps ih =>
      intro s h
      rw [List.map_cons, runFrom_cons, step_media_open s p h,
        ih { s with aiSent := s.aiSent ++ [AiOut.audioAppend p] } h]
      simp

lemma step_streamSid (s : SessionState) (e : Event) :
    (step s e).streamSid = lastSidFold s.streamSid e := by
  cases e with
  | aiOpen => rfl
  | settleTimer => simp only [step, aiSend]; split_ifs <;> rfl
  | aiMessage m =>
      cases m with
      | malformed => rfl
      | event ty delta =>
          cases delta with
          | none => rfl
          | some d => simp only [step, teleSend]; split_ifs <;> rfl
  | twilioMessage m =>
      cases m with
      | media p => simp only [step, aiSend]; split_ifs <;> rfl
      | start sid => rfl
      | other ev => rfl
      | malformed => rfl
  | twilioClose => simp only [step]; split_ifs <;> rfl
  | aiClose => rfl
  | aiError => rfl

lemma runFrom_streamSid (evs : List Event) : ∀ s : SessionState,
    (runFrom s evs).streamSid = evs.foldl lastSidFold s.streamSid := by
  induction evs with
  | nil => intro s; rfl
  | cons e evs ih =>
      intro s
      rw [runFrom_cons, List.foldl_cons, ih, step_streamSid]

lemma foldl_lastSid_no_start (evs : List Event) : ∀ acc : Option String,
    (∀ sid, Event.twilioMessage (TwilioMsg.start sid) ∉ evs) →
    evs.foldl lastSidFold acc = acc := by
  induction evs with
  | nil => intro acc _; rfl
  | cons e evs ih =>
      intro acc h
      have h1 : lastSidFold acc e = acc := by
        cases e with
        | twilioMessage m =>
            cases m with
            | start sid => exact absurd (List.mem_cons_self _ _) (h sid)
            | media p => rfl
            | other ev => rfl
            | malformed => rfl
        | aiOpen => rfl
        | settleTimer => rfl
        | aiMessage m => rfl
        | twilioClose => rfl
        | aiClose => rfl
        | aiError => rfl
      rw [List.foldl_cons, h1]
      exact ih acc fun sid hm => h sid (List.mem_cons_of_mem _ hm)

lemma step_quiet (s : SessionState) (e : Event)
    (hA : s.aiState ≠ ReadyState.OPEN) (hT : s.teleOpen = false)
    (hE : e ≠ Event.aiOpen) :
    (step s e).aiSent = s.aiSent ∧ (step s e).teleSent = s.teleSent
    ∧ (step s e).aiCloseCalls = s.aiCloseCalls
    ∧ (step s e).aiState ≠ ReadyState.OPEN ∧ (step s e).teleOpen = false := by
  cases e with
  | aiOpen => exact absurd rfl hE
  | settleTimer =>
      simp only [step, aiSend]
      split_ifs with h1
      · exact ⟨rfl, rfl, rfl, hA, hT⟩
      · exact ⟨rfl, rfl, rfl, hA, hT⟩
  | aiMessage m =>
      cases m with
      | malformed => exact ⟨rfl, rfl, rfl, hA, hT⟩
      | event ty delta =>
          cases delta with
          | none => exact ⟨rfl, rfl, rfl, hA, hT⟩
          | some d =>
              simp only [step, teleSend]
              split_ifs with h1 h2
              · simp [hT] at h2
              · exact ⟨rfl, rfl, rfl, hA, hT⟩
              · exact ⟨rfl, rfl, rfl, hA, hT⟩
  | twilioMessage m =>
      cases m with
      | media p =>
          simp only [step, aiSend]
          split_ifs with h1
          · exact absurd h1 hA
          · exact ⟨rfl, rfl, rfl, hA, hT⟩
      | start sid => exact ⟨rfl, rfl, rfl, hA, hT⟩
      | other ev => exact ⟨rfl, rfl, rfl, hA, hT⟩
      | malformed => exact ⟨rfl, rfl, rfl, hA, hT⟩
  | twilioClose =>
      simp only [step]
      split_ifs with h1
      · exact absurd h1 hA
      · exact ⟨rfl, rfl, rfl, hA, rfl⟩
  | aiClose => exact ⟨rfl, rfl, rfl, by simp [step], hT⟩
  | aiError => exact ⟨rfl, rfl, rfl, hA, hT⟩

lemma quiescent (post : List Event) : ∀ s : SessionState,
    s.aiState ≠ ReadyState.OPEN → s.teleOpen = false → Event.aiOpen ∉ post →
    (runFrom s post).aiSent = s.aiSent ∧ (runFrom s post).teleSent = s.teleSent
    ∧ (runFrom s post).aiCloseCalls = s.aiCloseCalls := by
  induction post with
  | nil => intro s _ _ _; exact ⟨rfl, rfl, rfl⟩
  | cons e post ih =>
      intro s hA hT hO
      have hE : e ≠ Event.aiOpen := fun h => hO (h ▸ List.mem_cons_self e post)
      obtain ⟨h1, h2, h3, h4, h5⟩ := step_quiet s e hA hT hE
      have hO' : Event.aiOpen ∉ post := fun hm => hO (List.mem_cons_of_mem e hm)
      obtain ⟨g1, g2, g3⟩ := ih (step s e) h4 h5 hO'
      exact ⟨g1.trans h1, g2.trans h2, g3.trans h3⟩

lemma stays_not_open (post : List Event) : ∀ t : SessionState,
    t.aiState ≠ ReadyState.OPEN → t.teleOpen = false → Event.aiOpen ∉ post →
    (runFrom t post).aiState ≠ ReadyState.OPEN := by
  induction post with
  | nil => intro t ht _ _; exact ht
  | cons e post ih =>
      intro t ht htT hO
      have hE : e ≠ Event.aiOpen := fun h => hO (h ▸ List.mem_cons_self e post)
      obtain ⟨_, _, _, k4, k5⟩ := step_quiet t e ht htT hE
      exact ih (step t e) k4 k5 fun hm => hO (List.mem_cons_of_mem e hm)

/-! ### Claims -/

/-- C1: every telephony `media` event received while the OpenAI socket's
readyState is OPEN produces exactly one `input_audio_buffer.append` on the
AI connection whose `audio` field is the inbound `media.payload`, appended
at the tail of the sent sequence; a run of consecutive such events yields
their appends in arrival order. -/
theorem media_forwarded_when_ready (s : SessionState) (p : String)
    (h : s.aiState = ReadyState.OPEN) :
    (step s (Event.twilioMessage (TwilioMsg.media p))).aiSent
      = s.aiSent ++ [AiOut.audioAppend p]
    ∧ ∀ ps : List String,
        (runFrom s (ps.map fun q => Event.twilioMessage (TwilioMsg.media q))).aiSent
          = s.aiSent ++ ps.map AiOut.audioAppend := by
  constructor
  · rw [step_media_open s p h]
  · exact fun ps => runFrom_media_batch ps s h

/-- Witness for `media_forwarded_when_ready` at the state reached after the
OpenAI socket opens. -/
theorem media_forwarded_when_ready_witness :
    (runTrace [Event.aiOpen]).aiState = ReadyState.OPEN
    ∧ (step (runTrace [Event.aiOpen]) (Event.twilioMessage (TwilioMsg.media "AAAA"))).aiSent
        = (runTrace [Event.aiOpen]).aiSent ++ [AiOut.audioAppend "AAAA"] :=
  ⟨by decide, (media_forwarded_when_ready (runTrace [Event.aiOpen]) "AAAA" (by decide)).1⟩

/-- C2, counterexample: the code re-encodes the delta
(`Buffer.from(delta, 'base64').toString('base64')`), so for the unpadded
base64 string "QQ" the outbound payload is the canonical "QQ==", not the
original string byte-for-byte. -/
theorem audio_delta_payload_not_verbatim :
    (runTrace [Event.aiMessage (OpenAiMsg.event "response.audio.delta" (some "QQ"))]).teleSent
      = [TwilioOut.mediaFrame none "QQ=="]
    ∧ "QQ==" ≠ "QQ" := by
  exact ⟨by decide, by decide⟩

/-- C2, amended: every AI `response.audio.delta` event with a non-empty
`delta` received while the telephony connection is open produces exactly one
media frame, tagged with the session's current `streamSid`, whose payload is
the canonical base64 re-encoding of the decoded delta bytes (equal to the
original `delta` exactly when `delta` is already canonically padded
base64). -/
theorem audio_delta_forwarded (s : SessionState) (d : String)
    (hT : s.teleOpen = true) (hd : d ≠ "") :
    (step s (Event.aiMessage (OpenAiMsg.event "response.audio.delta" (some d)))).teleSent
      = s.teleSent ++ [TwilioOut.mediaFrame s.streamSid (b64Roundtrip d)] := by
  simp [step, teleSend, hT, hd]

/-- Witness for `audio_delta_forwarded`: the spec's end-to-end scenario 2
(`streamSid` "SD123", delta "QUJD"). -/
theorem audio_delta_forwarded_witness :
    (runTrace [Event.twilioMessage (TwilioMsg.start "SD123")]).teleOpen = true
    ∧ ("QUJD" : String) ≠ ""
    ∧ (step (runTrace [Event.twilioMessage (TwilioMsg.start "SD123")])
          (Event.aiMessage (OpenAiMsg.event "response.audio.delta" (some "QUJD")))).teleSent
        = [TwilioOut.mediaFrame (some "SD123") "QUJD"] := by
  refine ⟨by decide, by decide, ?_⟩
  rw [audio_delta_forwarded (runTrace [Event.twilioMessage (TwilioMsg.start "SD123")])
    "QUJD" (by decide) (by decide)]
  decide

/-- C3: a telephony `media` event received while the OpenAI socket is not
OPEN leaves the session state completely unchanged — nothing is forwarded,
nothing is queued, and the rest of the run proceeds exactly as if the frame
had never arrived. -/
theorem media_dropped_when_not_ready (s : SessionState) (p : String) (rest : List Event)
    (h : s.aiState ≠ ReadyState.OPEN) :
    step s (Event.twilioMessage (TwilioMsg.media p)) = s
    ∧ runFrom s (Event.twilioMessage (TwilioMsg.media p) :: rest) = runFrom s rest := by
  have h1 : step s (Event.twilioMessage (TwilioMsg.media p)) = s := by
    simp [step, h]
  exact ⟨h1, by rw [runFrom_cons, h1]⟩

/-- Witness for `media_dropped_when_not_ready` at the initial (still
CONNECTING) state. -/
theorem media_dropped_when_not_ready_witness :
    initState.aiState ≠ ReadyState.OPEN
    ∧ step initState (Event.twilioMessage (TwilioMsg.media "AAAA")) = initState :=
  ⟨by decide, (media_dropped_when_not_ready initState "AAAA" [] (by decide)).1⟩

/-- C4, counterexample: when the OpenAI socket closes, the handler
(`openAiWs.on('close')`, line 161) only logs, so the telephony connection
stays open — after this teardown one connection is closed and the other
dangles open, refuting that closing either connection closes the other. -/
theorem ai_close_leaves_telephony_open :
    (runTrace [Event.aiOpen, Event.aiClose]).aiState = ReadyState.CLOSED
    ∧ (runTrace [Event.aiOpen, Event.aiClose]).teleOpen = true := by
  exact ⟨by decide, by decide⟩

/-- C4, amended: teardown is asymmetric — closing the telephony connection
closes the AI connection when it is open (calling `openAiWs.close()` once),
but closing the AI connection leaves the telephony connection as it was. -/
theorem teardown_asymmetric (s : SessionState) :
    (step s Event.twilioClose).teleOpen = false
    ∧ (s.aiState = ReadyState.OPEN →
        (step s Event.twilioClose).aiState = ReadyState.CLOSING
        ∧ (step s Event.twilioClose).aiCloseCalls = s.aiCloseCalls + 1)
    ∧ (step s Event.aiClose).teleOpen = s.teleOpen := by
  refine ⟨?_, fun h => ?_, rfl⟩
  · simp only [step]; split_ifs <;> rfl
  · constructor <;> simp [step, h]

/-- Witness for `teardown_asymmetric` at the state reached after the OpenAI
socket opens. -/
theorem teardown_asymmetric_witness :
    (runTrace [Event.aiOpen]).aiState = ReadyState.OPEN
    ∧ (step (runTrace [Event.aiOpen]) Event.twilioClose).teleOpen = false
    ∧ (step (runTrace [Event.aiOpen]) Event.twilioClose).aiState = ReadyState.CLOSING
    ∧ (step (runTrace [Event.aiOpen]) Event.twilioClose).aiCloseCalls
        = (runTrace [Event.aiOpen]).aiCloseCalls + 1
    ∧ (step (runTrace [Event.aiOpen]) Event.aiClose).teleOpen
        = (runTrace [Event.aiOpen]).teleOpen := by
  have h := teardown_asymmetric (runTrace [Event.aiOpen])
  exact ⟨by decide, h.1, (h.2.1 (by decide)).1, (h.2.1 (by decide)).2, h.2.2⟩

/-- C5, counterexample: a second `start` event overwrites `streamSid`
(line 142 assigns unconditionally), so two distinct values are assigned in
one session and the first assignment is not immutable. -/
theorem streamSid_overwritten_by_second_start :
    (runTrace [Event.twilioMessage (TwilioMsg.start "SD1")]).streamSid = some "SD1"
    ∧ (runTrace [Event.twilioMessage (TwilioMsg.start "SD1"),
        Event.twilioMessage (TwilioMsg.start "SD2")]).streamSid = some "SD2"
    ∧ (some "SD1" : Option String) ≠ some "SD2" := by
  exact ⟨by decide, by decide, by decide⟩

/-- C5, amended: `streamSid` is last-write-wins — after any trace it equals
the sid of the most recent `start` event (and `null` before the first one),
so only `start` events ever change it; in a session with at most one `start`
event at most one value is ever assigned and it never changes afterwards. -/
theorem streamSid_is_last_start (evs : List Event) :
    (runTrace evs).streamSid = lastStartSid evs :=
  runFrom_streamSid evs initState

/-- C6: when the telephony connection closes while the OpenAI socket is
OPEN, `openAiWs.close()` is called exactly once more (and never again), and
from the close onward no further message is delivered on either connection,
whatever events still arrive (provided the already-consumed socket `open`
event does not fire again). -/
theorem telephony_close_teardown (pre post : List Event)
    (hOpen : (runTrace pre).aiState = ReadyState.OPEN)
    (hNoReopen : Event.aiOpen ∉ post) :
    (runTrace (pre ++ Event.twilioClose :: post)).aiCloseCalls
        = (runTrace pre).aiCloseCalls + 1
    ∧ (runTrace (pre ++ Event.twilioClose :: post)).aiSent = (runTrace pre).aiSent
    ∧ (runTrace (pre ++ Event.twilioClose :: post)).teleSent = (runTrace pre).teleSent
    ∧ (runTrace (pre ++ Event.twilioClose :: post)).aiState ≠ ReadyState.OPEN := by
  have hsplit : runTrace (pre ++ Event.twilioClose :: post)
      = runFrom (step (runTrace pre) Event.twilioClose) post := by
    simp [runTrace, runFrom, List.foldl_append]
  have hstep : step (runTrace pre) Event.twilioClose
      = { runTrace pre with
            teleOpen := false
            aiState := ReadyState.CLOSING
            aiCloseCalls := (runTrace pre).aiCloseCalls + 1 } := by
    simp [step, hOpen]
  obtain ⟨g1, g2, g3⟩ := quiescent post (step (runTrace pre) Event.twilioClose)
    (by rw [hstep]; simp) (by rw [hstep]) hNoReopen
  rw [hsplit, g1, g2, g3, hstep]
  refine ⟨rfl, rfl, rfl, ?_⟩
  exact stays_not_open post _ (by simp) rfl hNoReopen

/-- Witness for `telephony_close_teardown`: OpenAI socket opens, telephony
closes, then a delta, a media frame and the AI close all arrive — nothing
more is delivered and the close was called exactly once. -/
theorem telephony_close_teardown_witness :
    (runTrace [Event.aiOpen]).aiState = ReadyState.OPEN
    ∧ Event.aiOpen ∉ [Event.aiMessage (OpenAiMsg.event "response.audio.delta" (some "QUJD")),
        Event.twilioMessage (TwilioMsg.media "AAAA"), Event.aiClose]
    ∧ (runTrace ([Event.aiOpen] ++ Event.twilioClose ::
        [Event.aiMessage (OpenAiMsg.event "response.audio.delta" (some "QUJD")),
         Event.twilioMessage (TwilioMsg.media "AAAA"), Event.aiClose])).aiCloseCalls
        = (runTrace [Event.aiOpen]).aiCloseCalls + 1
    ∧ (runTrace ([Event.aiOpen] ++ Event.twilioClose ::
        [Event.aiMessage (OpenAiMsg.event "response.audio.delta" (some "QUJD")),
         Event.twilioMessage (TwilioMsg.media "AAAA"), Event.aiClose])).aiSent
        = (runTrace [Event.aiOpen]).aiSent := by
  have h := telephony_close_teardown [Event.aiOpen]
    [Event.aiMessage (OpenAiMsg.event "response.audio.delta" (some "QUJD")),
     Event.twilioMessage (TwilioMsg.media "AAAA"), Event.aiClose]
    (by decide) (by decide)
  exact ⟨by decide, by decide, h.1, h.2.1⟩

/-- C7: a malformed (non-JSON) message on either socket is swallowed by the
`catch` blocks: the session state is left completely unchanged, so every
subsequent message is processed exactly as if the malformed one had never
arrived. -/
theorem malformed_message_is_noop (s : SessionState) (rest : List Event) :
    step s (Event.twilioMessage TwilioMsg.malformed) = s
    ∧ step s (Event.aiMessage OpenAiMsg.malformed) = s
    ∧ runFrom s (Event.twilioMessage TwilioMsg.malformed :: rest) = runFrom s rest
    ∧ runFrom s (Event.aiMessage OpenAiMsg.malformed :: rest) = runFrom s rest :=
  ⟨rfl, rfl, rfl, rfl⟩

/-- C8: the `open` handler itself sends nothing and only schedules the
settling timer; when the pending timer fires on the OPEN socket, exactly one
`session.update` is sent, carrying server-vad turn detection, `g711_ulaw`
input and output audio formats, modalities `text`+`audio` and temperature
0.8; a fired (no longer pending) timer never sends another. -/
theorem session_config_sent_once_after_open (t s : SessionState) :
    ((step t Event.aiOpen).aiState = ReadyState.OPEN
      ∧ (step t Event.aiOpen).timerPending = true
      ∧ (step t Event.aiOpen).aiSent = t.aiSent)
    ∧ (s.timerPending = true → s.aiState = ReadyState.OPEN →
        (step s Event.settleTimer).aiSent
          = s.aiSent ++ [AiOut.sessionUpdate
              { turn_detection := "server_vad"
                input_audio_format := "g711_ulaw"
                output_audio_format := "g711_ulaw"
                voice := VOICE
                instructions := SYSTEM_MESSAGE
                modalities := ["text", "audio"]
                temperature := 0.8 }]
        ∧ (step s Event.settleTimer).timerPending = false)
    ∧ (s.timerPending = false → (step s Event.settleTimer).aiSent = s.aiSent) := by
  refine ⟨⟨rfl, rfl, rfl⟩, fun hp ho => ⟨?_, ?_⟩, fun hp => ?_⟩
  · simp [step, aiSend, hp, ho, sessionUpdateCfg]
  · simp [step, aiSend, hp, ho]
  · simp [step, hp]

/-- Witness for `session_config_sent_once_after_open`: from the initial
state, the socket opens and the timer fires, delivering the one
`session.update`. -/
theorem session_config_sent_once_after_open_witness :
    (step initState Event.aiOpen).timerPending = true
    ∧ (step initState Event.aiOpen).aiState = ReadyState.OPEN
    ∧ (step (step initState Event.aiOpen) Event.settleTimer).aiSent
        = [AiOut.sessionUpdate sessionUpdateCfg] := by
  refine ⟨by decide, by decide, ?_⟩
  have h := (session_config_sent_once_after_open initState
    (step initState Event.aiOpen)).2.1 (by decide) (by decide)
  rw [h.1]
  rfl

/-- C9: the `response.audio.delta` handler does not guard on `streamSid`:
with no `start` event yet processed (`streamSid` still `null`), a non-empty
delta still produces exactly one immediate media frame whose `streamSid`
field is `null`; moreover any trace without a `start` event leaves
`streamSid` at `null`. -/
theorem delta_before_start_uses_null_sid (s : SessionState) (d : String) (evs : List Event)
    (hSid : s.streamSid = none) (hT : s.teleOpen = true) (hd : d ≠ "") :
    (step s (Event.aiMessage (OpenAiMsg.event "response.audio.delta" (some d)))).teleSent
      = s.teleSent ++ [TwilioOut.mediaFrame none (b64Roundtrip d)]
    ∧ ((∀ sid, Event.twilioMessage (TwilioMsg.start sid) ∉ evs) →
        (runTrace evs).streamSid = none) := by
  constructor
  · simp [step, teleSend, hT, hd, hSid]
  · intro hNo
    rw [runTrace, runFrom_streamSid]
    exact foldl_lastSid_no_start evs initState.streamSid hNo

/-- Witness for `delta_before_start_uses_null_sid` at the initial state. -/
theorem delta_before_start_uses_null_sid_witness :
    initState.streamSid = none
    ∧ initState.teleOpen = true
    ∧ ("QUJD" : String) ≠ ""
    ∧ (step initState (Event.aiMessage
        (OpenAiMsg.event "response.audio.delta" (some "QUJD")))).teleSent
        = [TwilioOut.mediaFrame none "QUJD"]
    ∧ (runTrace [Event.aiOpen]).streamSid = none := by
  have h := delta_before_start_uses_null_sid initState "QUJD" [Event.aiOpen]
    rfl rfl (by decide)
  refine ⟨rfl, rfl, by decide, ?_, h.2 (by intro sid hm; simp at hm)⟩
  rw [h.1]
  decide

/-- C10: if the telephony connection closes while the OpenAI socket is not
OPEN (e.g. still CONNECTING), the close handler's readyState guard makes the
`openAiWs.close()` call unreachable: the AI socket's state and the close-call
count are untouched, and a later socket `open` still succeeds. -/
theorem telephony_close_spares_connecting_ai (s : SessionState)
    (h : s.aiState ≠ ReadyState.OPEN) :
    (step s Event.twilioClose).aiState = s.aiState
    ∧ (step s Event.twilioClose).aiCloseCalls = s.aiCloseCalls
    ∧ (step s Event.twilioClose).teleOpen = false
    ∧ (step (step s Event.twilioClose) Event.aiOpen).aiState = ReadyState.OPEN := by
  refine ⟨?_, ?_, ?_, rfl⟩ <;> simp [step, h]

/-- Witness for `telephony_close_spares_connecting_ai` at the initial
(CONNECTING) state. -/
theorem telephony_close_spares_connecting_ai_witness :
    initState.aiState ≠ ReadyState.OPEN
    ∧ (step initState Event.twilioClose).aiState = initState.aiState
    ∧ (step initState Event.twilioClose).aiCloseCalls = initState.aiCloseCalls
    ∧ (step initState Event.twilioClose).teleOpen = false
    ∧ (step (step initState Event.twilioClose) Event.aiOpen).aiState = ReadyState.OPEN := by
  have h := telephony_close_spares_connecting_ai initState (by decide)
  exact ⟨by decide, h.1, h.2.1, h.2.2.1, h.2.2.2⟩
